import Mathlib

/-!
# Verification of the longhorn-preflight namespace wrappers and file lock

Shallow embedding of the Go sources:
* `namespace` package wrappers (`CopyDirectory`, `CreateDirectory`, `DeleteDirectory`,
  `ReadDirectory`, `CopyFiles`, `GetEmptyFiles`, `GetFileInfo`, `ReadFileContent`,
  `WriteFile`, `DeletePath`, `GetDiskStat`, `LockFile`),
* the `FileLock` structure with `NewLock`, `Lock` (as an interleaving state machine)
  and `Unlock`,
* `GetDefaultProcessName`.

Go machine-level conventions that matter here and are modelled explicitly:
* `errors.Wrapf(err, fmt, ...)` returns `nil` when `err` is `nil`, otherwise an error
  whose message is the formatted context, a `": "` separator, and the inner message.
* A deferred assignment to a local `err` variable in a function with an *unnamed*
  result parameter runs after the return value has already been copied, so it does
  not change what the caller receives (Go spec: deferred functions may only assign
  to *named* result parameters).
* `close` on an already-closed channel panics with message "close of closed channel".
-/

set_option linter.unusedVariables false
set_option linter.unreachableTactic false
set_option linter.unusedTactic false

namespace LonghornPreflight

/-! ## Errors (github.com/pkg/errors and fmt) -/

/-- A Go error value: `fmt.Errorf`/`errors.Errorf` leaves a plain message,
`errors.Wrapf` layers a context message on an inner error, and the namespace
wrappers build a dedicated cast-failure error from
`types.ErrNamespaceCastResultFmt`. -/
inductive GoErr where
  | errorf (msg : String)
  | wrapped (ctx : String) (inner : GoErr)
  | castFailed (expected : String) (got : String)
deriving DecidableEq, Repr

/-- The message `Error()` would return: `errors.Wrapf` renders as
"context: inner". The cast-failure rendering is modelled from the spec
("cast failed" type-contract errors); its exact format string
(`types.ErrNamespaceCastResultFmt`) is in the vendored types package, not in src. -/
def render : GoErr → String
  | .errorf m => m
  | .wrapped ctx inner => ctx ++ ": " ++ render inner
  | .castFailed expected got => "failed to cast " ++ got ++ " to " ++ expected

/-- `errors.Wrapf` on an optional error: passes `nil` through unchanged. -/
def wrapf (e : Option GoErr) (ctx : String) : Option GoErr :=
  e.map (GoErr.wrapped ctx)

/-- `e.isCastFailedErr = true` exactly when the outermost error is the distinct
cast-failure error. -/
def GoErr.isCastFailedErr : GoErr → Bool
  | .castFailed _ _ => true
  | _ => false

/-- Whether `needle` occurs as a contiguous substring of `hay`. -/
def containsSub (hay needle : String) : Bool :=
  (List.range (hay.length + 1)).any fun i =>
    (hay.toList.drop i).take needle.length = needle.toList

/-! ## Path helpers (strings.Count, path/filepath Clean and Abs) -/

/-- `strings.Count s sep` for a single-character separator: the number of
occurrences of the character in the string. -/
def countCharList (c : Char) : List Char → Nat
  | [] => 0
  | a :: rest => (if a = c then 1 else 0) + countCharList c rest

/-- `strings.Count` on a string, via its character list. -/
def countChar (c : Char) (s : String) : Nat :=
  countCharList c s.toList

/-- Whether a string starts with '/' (`filepath.IsAbs` for Unix). -/
def isAbs (s : String) : Bool :=
  match s.toList with
  | [] => false
  | a :: _ => a = '/'

/-- `strings.Split s "/"`, keeping empty segments. -/
def splitSlashAux (acc : List Char) : List Char → List String
  | [] => [String.mk acc.reverse]
  | a :: rest =>
    if a = '/' then String.mk acc.reverse :: splitSlashAux [] rest
    else splitSlashAux (a :: acc) rest

/-- `strings.Split` on "/" for a string. -/
def splitSlash (s : String) : List String :=
  splitSlashAux [] s.toList

/-- Join path elements with '/' separators (`strings.Join elems "/"`). -/
def joinSlash : List String → String
  | [] => ""
  | [e] => e
  | e :: rest => e ++ "/" ++ joinSlash rest

/-- Core of `path/filepath.Clean` (Unix): process the slash-separated elements,
dropping empty and "." elements, resolving ".." against the accumulated prefix
(".." at the root is dropped; above a relative path it is kept). -/
def cleanElems (rooted : Bool) : List String → List String → List String
  | acc, [] => acc.reverse
  | acc, e :: rest =>
    if e = "" ∨ e = "." then cleanElems rooted acc rest
    else if e = ".." then
      match acc with
      | [] => if rooted then cleanElems rooted [] rest
              else cleanElems rooted [".."] rest
      | a :: as =>
        if a = ".." then cleanElems rooted (".." :: a :: as) rest
        else cleanElems rooted as rest
    else cleanElems rooted (e :: acc) rest

/-- `path/filepath.Clean` for Unix paths. -/
def clean (path : String) : String :=
  if path = "" then "."
  else
    let rooted := isAbs path
    let elems := cleanElems rooted [] (splitSlash path)
    if rooted then "/" ++ joinSlash elems
    else if elems = [] then "." else joinSlash elems

/-- `filepath.Abs(filepath.Clean p)` as used by the wrappers: clean the path,
and if the result is not absolute, join it onto the working directory
(`filepath.Join` re-cleans). `Getwd` is modelled as always succeeding with `cwd`. -/
def absClean (cwd p : String) : String :=
  let cp := clean p
  if isAbs cp then clean cp else clean (cwd ++ "/" ++ cp)

/-! ## The untyped executor result and the filesystem oracle -/

/-- The `interface{}` value returned through `RunFunc`. Constructors cover the
concrete types the wrappers cast to. -/
inductive GoValue where
  | vNil
  | vString (s : String)
  | vDirEntries (entries : List String)
  | vStrings (ss : List String)
  | vFileInfo (name : String)
  | vDiskStat (path : String)
  | vFile (handle : Nat)
deriving DecidableEq, Repr

/-- The Go dynamic type name of a `GoValue`, used in the cast-failure error. -/
def GoValue.typeName : GoValue → String
  | .vNil => "nil"
  | .vString _ => "string"
  | .vDirEntries _ => "[]fs.DirEntry"
  | .vStrings _ => "[]string"
  | .vFileInfo _ => "fs.FileInfo"
  | .vDiskStat _ => "types.DiskStat"
  | .vFile _ => "*os.File"

/-- Outcome of `os.Stat`: success, a not-exists error, or another error. -/
inductive StatRes where
  | ok
  | notExist
  | err (e : GoErr)
deriving DecidableEq, Repr

/-- A destructive filesystem call issued by a wrapper's closure. Read-only
calls (stat, read) are not effects. -/
inductive FsEffect where
  | removeAll (p : String)
  | copyFiles (src dst : String) (overwrite : Bool)
  | writeFile (p : String) (data : String)
deriving DecidableEq, Repr

/-- Environment oracle: the working directory, whether the namespace executor's
infrastructure (resolve/open/switch) fails, and the outcomes of the underlying
filesystem calls the closures make. -/
structure Env where
  cwd : String := "/root"
  nsFail : Option GoErr := none
  statRes : String → StatRes := fun _ => .ok
  removeRes : String → Option GoErr := fun _ => none
  copyRes : String → String → Bool → Option GoErr := fun _ _ _ => none
  writeRes : String → String → Option GoErr := fun _ _ => none

/-- Modelled from the spec: the Namespace Executor `RunFunc` (vendored
go-common-libs, not in src). It resolves the process, switches the pinned
thread into the target mount namespace, runs the closure, restores the
namespace, and returns the closure's untyped result, error, and the
destructive calls it made; an infrastructure failure is reported without
running the closure. -/
def RunFunc (nsFail : Option GoErr)
    (fn : Unit → GoValue × Option GoErr × List FsEffect) :
    GoValue × Option GoErr × List FsEffect :=
  match nsFail with
  | some e => (.vNil, some (.wrapped "namespace executor failed" e), [])
  | none => fn ()

/-! ## Namespace wrappers (file and directory operations) -/

/-- `CopyDirectory`: cleans and absolutizes both paths, rejects when either has
fewer than two separators, otherwise copies through the executor. The deferred
`errors.Wrapf` is effective because the result parameter `err` is named. -/
def CopyDirectory (env : Env) (procName source destination : String)
    (overWrite : Bool) : Option GoErr × List FsEffect :=
  let srcDir := absClean env.cwd source
  let dstDir := absClean env.cwd destination
  if countChar '/' srcDir < 2 ∨ countChar '/' dstDir < 2 then
    (wrapf (some (.errorf ("prohibit copying the content for the top level of directory "
        ++ srcDir ++ " or " ++ dstDir)))
      ("failed to copy host content from " ++ source ++ " to " ++ destination), [])
  else
    let r := RunFunc env.nsFail fun _ =>
      (.vString "", env.copyRes source destination overWrite,
        [.copyFiles source destination overWrite])
    (wrapf r.2.1 ("failed to copy host content from " ++ source ++ " to " ++ destination),
      r.2.2)

/-- The part of `CreateDirectory` after `RunFunc` returns: propagate an executor
error, otherwise downcast the raw result to `string`; a mismatch yields the
cast-failure error. Both are wrapped by the (named-result) deferred `Wrapf`. -/
def CreateDirectoryPost (path : String) (rawResult : GoValue) (err : Option GoErr) :
    String × Option GoErr :=
  match err with
  | some e => ("", some (.wrapped ("failed to create directory " ++ path) e))
  | none =>
    match rawResult with
    | .vString s => (s, none)
    | v => ("", some (.wrapped ("failed to create directory " ++ path)
        (.castFailed "string" v.typeName)))

/-- The part of `ReadDirectory` after `RunFunc` returns (cast to `[]fs.DirEntry`,
nil slice modelled as `[]`). -/
def ReadDirectoryPost (directory : String) (rawResult : GoValue) (err : Option GoErr) :
    List String × Option GoErr :=
  match err with
  | some e => ([], some (.wrapped ("failed to read directory " ++ directory) e))
  | none =>
    match rawResult with
    | .vDirEntries es => (es, none)
    | v => ([], some (.wrapped ("failed to read directory " ++ directory)
        (.castFailed "[]fs.DirEntry" v.typeName)))

/-- The part of `GetEmptyFiles` after `RunFunc` returns (cast to `[]string`). -/
def GetEmptyFilesPost (directory : String) (rawResult : GoValue) (err : Option GoErr) :
    List String × Option GoErr :=
  match err with
  | some e => ([], some (.wrapped ("failed to get empty files in " ++ directory) e))
  | none =>
    match rawResult with
    | .vStrings ss => (ss, none)
    | v => ([], some (.wrapped ("failed to get empty files in " ++ directory)
        (.castFailed "[]string" v.typeName)))

/-- The part of `GetFileInfo` after `RunFunc` returns (cast to `fs.FileInfo`,
nil interface modelled as `none`). -/
def GetFileInfoPost (path : String) (rawResult : GoValue) (err : Option GoErr) :
    Option String × Option GoErr :=
  match err with
  | some e => (none, some (.wrapped ("failed to get file info of " ++ path) e))
  | none =>
    match rawResult with
    | .vFileInfo i => (some i, none)
    | v => (none, some (.wrapped ("failed to get file info of " ++ path)
        (.castFailed "fs.FileInfo" v.typeName)))

/-- The part of `ReadFileContent` after `RunFunc` returns (cast to `string`). -/
def ReadFileContentPost (filePath : String) (rawResult : GoValue) (err : Option GoErr) :
    String × Option GoErr :=
  match err with
  | some e => ("", some (.wrapped ("failed to read file content of " ++ filePath) e))
  | none =>
    match rawResult with
    | .vString s => (s, none)
    | v => ("", some (.wrapped ("failed to read file content of " ++ filePath)
        (.castFailed "string" v.typeName)))

/-- The part of `GetDiskStat` after `RunFunc` returns (cast to `types.DiskStat`).
`GetDiskStat` has *unnamed* result parameters, so its deferred `Wrapf` never
reaches the caller: both the executor error and the cast-failure error are
returned without the "failed to get disk stat" context. -/
def GetDiskStatPost (rawResult : GoValue) (err : Option GoErr) :
    Option String × Option GoErr :=
  match err with
  | some e => (none, some e)
  | none =>
    match rawResult with
    | .vDiskStat d => (some d, none)
    | v => (none, some (.castFailed "types.DiskStat" v.typeName))

/-- The part of the namespace `LockFile` wrapper after `RunFunc` returns (cast
to `*os.File`, file handles modelled as naturals). Named results, so the
deferred `Wrapf` is effective. -/
def LockFilePost (path : String) (rawResult : GoValue) (err : Option GoErr) :
    Option Nat × Option GoErr :=
  match err with
  | some e => (none, some (.wrapped ("failed to lock file " ++ path) e))
  | none =>
    match rawResult with
    | .vFile f => (some f, none)
    | v => (none, some (.wrapped ("failed to lock file " ++ path)
        (.castFailed "*os.File" v.typeName)))

/-- `DeleteDirectory`: cleans and absolutizes the path, rejects when it has
fewer than two separators; otherwise the closure stats the cleaned directory,
treats not-exists as success, and removes it. Named result, wrap effective. -/
def DeleteDirectory (env : Env) (procName directory : String) :
    Option GoErr × List FsEffect :=
  let dir := absClean env.cwd directory
  if countChar '/' dir < 2 then
    (wrapf (some (.errorf ("prohibit removing the top level of directory " ++ dir)))
      ("failed to remove host directory " ++ directory), [])
  else
    let r := RunFunc env.nsFail fun _ =>
      match env.statRes dir with
      | .notExist => (.vNil, none, [])
      | .err e => (.vNil, some e, [])
      | .ok => (.vNil, env.removeRes dir, [.removeAll dir])
    (wrapf r.2.1 ("failed to remove host directory " ++ directory), r.2.2)

/-- `CopyFiles`: no path guard at all; the closure always calls the underlying
copy. Named result, wrap effective. -/
def CopyFiles (env : Env) (procName sourcePath destinationPath : String)
    (doOverWrite : Bool) : Option GoErr × List FsEffect :=
  let r := RunFunc env.nsFail fun _ =>
    (.vString "", env.copyRes sourcePath destinationPath doOverWrite,
      [.copyFiles sourcePath destinationPath doOverWrite])
  (wrapf r.2.1 ("failed to copy files from " ++ sourcePath ++ " to " ++ destinationPath),
    r.2.2)

/-- `WriteFile`: the closure writes the data. The function's result parameter is
*unnamed* (`func WriteFile(...) error`), so the deferred
`errors.Wrapf(err, "failed to write file %s", filePath)` assigns a local after
the return value has been copied: the caller receives the inner error unwrapped. -/
def WriteFile (env : Env) (procName filePath data : String) :
    Option GoErr × List FsEffect :=
  let r := RunFunc env.nsFail fun _ =>
    (.vString "", env.writeRes filePath data, [.writeFile filePath data])
  (r.2.1, r.2.2)

/-- `DeletePath`: no path guard; the closure calls `os.RemoveAll` on the raw
path. Unnamed result parameter, so (as in `WriteFile`) the deferred
`errors.Wrapf(err, "failed to delete path %s", path)` never reaches the caller. -/
def DeletePath (env : Env) (procName path : String) :
    Option GoErr × List FsEffect :=
  let r := RunFunc env.nsFail fun _ =>
    (.vString "", env.removeRes path, [.removeAll path])
  (r.2.1, r.2.2)

/-! ## Process-name constants and the default process resolver -/

/-- Modelled from the spec: the "none" process name (run in the caller's own
namespace); the vendored `types` constants are not in src. -/
def ProcessNone : String := "none"

/-- Modelled from the spec: the kubelet supervisor process name used on
minimal/immutable distributions. -/
def ProcessKubelet : String := "kubelet"

/-- Modelled from the spec: the os-release `ID` value identifying Talos Linux. -/
def OSDistroTalosLinux : String := "talos"

/-- `GetDefaultProcessName`: the distro-detection outcome (the `namespace`
package's `GetOSDistro`, not in src, may fail) is a parameter. Detection
failure degrades to `ProcessNone`; Talos Linux maps to `ProcessKubelet`;
every other distro maps to `ProcessNone`. The function returns a plain
string — it has no error result at all. -/
def GetDefaultProcessName (osDistroResult : Except GoErr String) : String :=
  match osDistroResult with
  | .error _ => ProcessNone
  | .ok osDistro => if osDistro = OSDistroTalosLinux then ProcessKubelet else ProcessNone

/-! ## FileLock: construction and release -/

/-- Modelled from the spec: `types.FileLockDefaultTimeout` (vendored, not in
src) is a fixed nonzero duration substituted for a zero configured timeout.
Durations are nanoseconds; the value here is 24 hours. -/
def FileLockDefaultTimeout : Nat := 24 * 60 * 60 * 1000000000

/-- The `FileLock` struct: target path, acquisition timeout, and the state of
its `done` channel (`doneClosed = true` once `close(lock.done)` has run). The
`File` handle and mutex live in the `Lock` state machine below. -/
structure FileLock where
  FilePath : String
  Timeout : Nat
  doneClosed : Bool
deriving DecidableEq, Repr

/-- `NewLock`: substitutes the default timeout for a zero timeout and creates
the lock with an open `done` channel. -/
def NewLock (filepath : String) (timeout : Nat) : FileLock :=
  let t := if timeout = 0 then FileLockDefaultTimeout else timeout
  { FilePath := filepath, Timeout := t, doneClosed := false }

/-- Outcome of `Unlock`: either the lock with its `done` channel now closed, or
a Go runtime panic. -/
inductive CloseOutcome where
  | ok (lock : FileLock)
  | panicked (msg : String)
deriving DecidableEq, Repr

/-- `Unlock` executes `close(lock.done)`. Go runtime semantics: closing an
already-closed channel panics with "close of closed channel". -/
def FileLock.Unlock (lock : FileLock) : CloseOutcome :=
  if lock.doneClosed then .panicked "close of closed channel"
  else .ok { lock with doneClosed := true }

/-! ## FileLock.Lock as an interleaving state machine

`Lock` runs three threads over shared state guarded by `lock.mutex`:
the caller (select over `resultCh` and the timeout context, then the timeout
branch), the acquisition goroutine (mutex; `LockFile`; set `lock.File`; send on
`resultCh`; release mutex), and — only armed on the success path — the release
waiter (wait for `done`; mutex; unlock and clear the handle). `Unlock` closes
the `done` channel. Each atomic source statement is one action; a schedule is a
list of actions, and an action not enabled in the current configuration is a
no-op. -/

/-- Which thread holds `lock.mutex`. -/
inductive MutexOwner where
  | goro
  | main
  | waiter
deriving DecidableEq, Repr

/-- Program counter of the acquisition goroutine: `g0` before `mutex.Lock()`;
`g1` holding the mutex, before `LockFile`; `g2` with a handle from `LockFile`;
`g3` after `lock.File = result`; `g4` after `resultCh <- struct{}{}`;
`gDone` after the deferred `mutex.Unlock()`; `gDoneErr` after sending the
`LockFile` error on `errCh` (deferred unlock included). -/
inductive GPc where
  | g0
  | g1
  | g2
  | g3
  | g4
  | gDone
  | gDoneErr
deriving DecidableEq, Repr

/-- Program counter of the caller inside `Lock`: `sel` blocked in the select;
`t1` after taking the `ctx.Done()` branch; `t2` holding the mutex; `t3` after
the handle check; `doneOk`, `doneTimeout`, `doneUnlockFail` are the three
return points (success, timeout error, failed unlock of a timed-out lock). -/
inductive MPc where
  | sel
  | t1
  | t2
  | t3
  | doneOk
  | doneTimeout
  | doneUnlockFail
deriving DecidableEq, Repr

/-- Program counter of the release waiter: `w0` blocked on `<-lock.done`;
`w1` before `mutex.Lock()`; `w2` holding the mutex; `wDone` finished. -/
inductive WPc where
  | w0
  | w1
  | w2
  | wDone
deriving DecidableEq, Repr

/-- Oracle for the two namespace-executed syscalls inside `Lock`:
the outcome of `LockFile` and, per handle, of `utils.UnlockFile`. -/
structure LockOracle where
  acq : Except GoErr Nat
  unlockRes : Nat → Option GoErr

/-- Shared configuration of one `Lock` run: the struct fields (`file` is
`lock.File`), the channels, the context deadline flag, which thread holds the
mutex, the three program counters, `Lock`'s return value once it returns
(`some none` = nil error), whether the timeout branch observed a nil handle,
whether the success path armed the waiter, and the handles successfully passed
to `UnlockFile`. -/
structure LockConfig where
  path : String
  file : Option Nat := none
  mutex : Option MutexOwner := none
  resultCh : Bool := false
  errCh : Option GoErr := none
  ctxDone : Bool := false
  doneClosed : Bool := false
  waiterStarted : Bool := false
  observedNil : Bool := false
  gpc : GPc := .g0
  mpc : MPc := .sel
  wpc : WPc := .w0
  ret : Option (Option GoErr) := none
  unlocked : List Nat := []
deriving DecidableEq, Repr

/-- One atomic action of one of the threads (or the timer, or the caller's
later `Unlock`). -/
inductive LockAct where
  | timerFire
  | gAcq
  | gLockFile
  | gSetFile
  | gSendResult
  | gRelease
  | mRecv
  | mTimeout
  | mAcq
  | mCheck
  | mRet
  | uUnlock
  | wRecvDone
  | wAcq
  | wCheck
deriving DecidableEq, Repr

/-- The timeout error `Lock` returns. `Lock` has an *unnamed* result
parameter, so the deferred `errors.Wrapf(err, "failed to lock file %s", ...)`
never reaches the caller; the message is exactly the `fmt.Errorf` one, naming
the path only. -/
def timeoutErr (path : String) : GoErr :=
  .errorf ("timed out waiting for file to lock " ++ path)

/-- Single step of the `Lock` machine: perform the action if it is enabled in
`c`, otherwise leave the configuration unchanged. Each branch mirrors one
statement of the source. -/
def lockStep (o : LockOracle) (c : LockConfig) : LockAct → LockConfig
  | .timerFire => { c with ctxDone := true }
  | .gAcq =>
    if c.gpc = .g0 ∧ c.mutex = none then { c with mutex := some .goro, gpc := .g1 }
    else c
  | .gLockFile =>
    if c.gpc = .g1 then
      match o.acq with
      | .ok _ => { c with gpc := .g2 }
      | .error e => { c with errCh := some e, mutex := none, gpc := .gDoneErr }
    else c
  | .gSetFile =>
    if c.gpc = .g2 then
      match o.acq with
      | .ok h => { c with file := some h, gpc := .g3 }
      | .error _ => c
    else c
  | .gSendResult =>
    if c.gpc = .g3 then { c with resultCh := true, gpc := .g4 } else c
  | .gRelease =>
    if c.gpc = .g4 then { c with mutex := none, gpc := .gDone } else c
  | .mRecv =>
    if c.mpc = .sel ∧ c.resultCh = true then
      { c with resultCh := false, mpc := .doneOk, waiterStarted := true,
               ret := some none }
    else c
  | .mTimeout =>
    if c.mpc = .sel ∧ c.ctxDone = true then { c with mpc := .t1 } else c
  | .mAcq =>
    if c.mpc = .t1 ∧ c.mutex = none then { c with mutex := some .main, mpc := .t2 }
    else c
  | .mCheck =>
    if c.mpc = .t2 then
      match c.file with
      | some h =>
        match o.unlockRes h with
        | none => { c with unlocked := c.unlocked ++ [h], file := none, mpc := .t3 }
        | some e =>
          let werr : GoErr := .wrapped ("failed to unlock timed out lock file " ++ c.path) e
          { c with ret := some (some werr), mutex := none, mpc := .doneUnlockFail }
      | none => { c with observedNil := true, mpc := .t3 }
    else c
  | .mRet =>
    if c.mpc = .t3 then
      { c with ret := some (some (timeoutErr c.path)), mutex := none,
               mpc := .doneTimeout }
    else c
  | .uUnlock =>
    if c.doneClosed = false then { c with doneClosed := true } else c
  | .wRecvDone =>
    if c.waiterStarted = true ∧ c.wpc = .w0 ∧ c.doneClosed = true then
      { c with wpc := .w1 }
    else c
  | .wAcq =>
    if c.wpc = .w1 ∧ c.mutex = none then { c with mutex := some .waiter, wpc := .w2 }
    else c
  | .wCheck =>
    if c.wpc = .w2 then
      match c.file with
      | some h =>
        match o.unlockRes h with
        | none =>
          { c with unlocked := c.unlocked ++ [h], file := none, mutex := none, wpc := .wDone }
        | some _ => { c with file := none, mutex := none, wpc := .wDone }
      | none => { c with mutex := none, wpc := .wDone }
    else c

/-- Initial configuration of a `Lock` call on a lock for `path`. -/
def lockInit (path : String) : LockConfig := { path := path }

/-- Run a schedule of actions from the initial configuration. -/
def lockRun (o : LockOracle) (path : String) (sched : List LockAct) : LockConfig :=
  sched.foldl (lockStep o) (lockInit path)

/-! ## Invariant of the `Lock` machine (for a successful `LockFile` outcome) -/

/-- Inductive invariant of the `Lock` machine, for an oracle whose `LockFile`
call returns handle `h`. The fields record: the waiter is armed exactly on the
success return; an advanced waiter implies it was armed; nothing is unlocked
before the timeout branch's handle check; the goroutine has not set the handle
before `g3`; a set handle is `h` and the goroutine is at or past `g3`; before
the handle check, a goroutine at or past `g3` implies the handle is still set;
after the check observed a nil handle, the timeout path is past the check,
nothing was unlocked, and the handle is exactly tracked by the goroutine's
progress; the timeout return carries the timeout error; after the check found
and unlocked a handle, the handle list is `[h]` and the field is cleared; and
the goroutine's failure exit is unreachable. -/
structure InvL (h : Nat) (c : LockConfig) : Prop where
  ws_iff : c.waiterStarted = true ↔ c.mpc = .doneOk
  wpc_ws : c.wpc ≠ .w0 → c.waiterStarted = true
  pre_unlocked : c.mpc = .sel ∨ c.mpc = .t1 ∨ c.mpc = .t2 → c.unlocked = []
  early_file : c.gpc = .g0 ∨ c.gpc = .g1 ∨ c.gpc = .g2 → c.file = none
  file_some : ∀ x, c.file = some x → x = h ∧ (c.gpc = .g3 ∨ c.gpc = .g4 ∨ c.gpc = .gDone)
  pre_check : c.mpc = .sel ∨ c.mpc = .t1 ∨ c.mpc = .t2 →
    (c.gpc = .g3 ∨ c.gpc = .g4 ∨ c.gpc = .gDone) → c.file = some h
  obs_nil : c.observedNil = true →
    (c.mpc = .t3 ∨ c.mpc = .doneTimeout) ∧ c.unlocked = []
    ∧ ((c.file = none ∧ (c.gpc = .g0 ∨ c.gpc = .g1 ∨ c.gpc = .g2))
       ∨ (c.file = some h ∧ (c.gpc = .g3 ∨ c.gpc = .g4 ∨ c.gpc = .gDone)))
  ret_timeout : c.mpc = .doneTimeout → c.ret = some (some (timeoutErr c.path))
  cleared : c.mpc = .t3 ∨ c.mpc = .doneTimeout → c.observedNil = false →
    c.unlocked = [h] ∧ c.file = none ∧ (c.gpc = .g3 ∨ c.gpc = .g4 ∨ c.gpc = .gDone)
  no_gerr : c.gpc ≠ .gDoneErr

/-- The initial configuration satisfies the invariant. -/
theorem invL_init (h : Nat) (p : String) : InvL h (lockInit p) := by
  constructor <;> simp [lockInit]

set_option maxHeartbeats 4000000

/-- Every action of the `Lock` machine preserves the invariant. -/
theorem invL_step (o : LockOracle) (h : Nat) (ho : o.acq = .ok h)
    (c : LockConfig) (hc : InvL h c) (a : LockAct) : InvL h (lockStep o c a) := by
  obtain ⟨h1, h2, h3, h4, h5, h6, h7, h8, h9, h10⟩ := hc
  cases a <;> simp only [lockStep]
  case timerFire => exact ⟨h1, h2, h3, h4, h5, h6, h7, h8, h9, h10⟩
  case gAcq =>
    by_cases hcond : c.gpc = .g0 ∧ c.mutex = none
    · rw [if_pos hcond]
      refine ⟨?_, ?_, ?_, ?_, ?_, ?_, ?_, ?_, ?_, ?_⟩ <;>
        first
          | (simp_all; done)
          | (intro x hx; exact (h5 x hx).1)
          | (intro x hx; refine ⟨(h5 x hx).1, ?_⟩; simp_all)
          | (cases hg : c.gpc <;> simp_all)
    · rw [if_neg hcond]; exact ⟨h1, h2, h3, h4, h5, h6, h7, h8, h9, h10⟩
  case gLockFile =>
    by_cases hcond : c.gpc = .g1
    · rw [if_pos hcond]
      simp only [ho]
      refine ⟨?_, ?_, ?_, ?_, ?_, ?_, ?_, ?_, ?_, ?_⟩ <;>
        first
          | (simp_all; done)
          | (intro x hx; exact (h5 x hx).1)
          | (intro x hx; refine ⟨(h5 x hx).1, ?_⟩; simp_all)
          | (cases hg : c.gpc <;> simp_all)
    · rw [if_neg hcond]; exact ⟨h1, h2, h3, h4, h5, h6, h7, h8, h9, h10⟩
  case gSetFile =>
    by_cases hcond : c.gpc = .g2
    · rw [if_pos hcond]
      simp only [ho]
      refine ⟨?_, ?_, ?_, ?_, ?_, ?_, ?_, ?_, ?_, ?_⟩ <;>
        first
          | (simp_all; done)
          | (intro x hx; exact (h5 x hx).1)
          | (intro x hx; refine ⟨(h5 x hx).1, ?_⟩; simp_all)
          | (cases hg : c.gpc <;> simp_all)
    · rw [if_neg hcond]; exact ⟨h1, h2, h3, h4, h5, h6, h7, h8, h9, h10⟩
  case gSendResult =>
    by_cases hcond : c.gpc = .g3
    · rw [if_pos hcond]
      refine ⟨?_, ?_, ?_, ?_, ?_, ?_, ?_, ?_, ?_, ?_⟩ <;>
        first
          | (simp_all; done)
          | (intro x hx; exact (h5 x hx).1)
          | (intro x hx; refine ⟨(h5 x hx).1, ?_⟩; simp_all)
          | (cases hg : c.gpc <;> simp_all)
    · rw [if_neg hcond]; exact ⟨h1, h2, h3, h4, h5, h6, h7, h8, h9, h10⟩
  case gRelease =>
    by_cases hcond : c.gpc = .g4
    · rw [if_pos hcond]
      refine ⟨?_, ?_, ?_, ?_, ?_, ?_, ?_, ?_, ?_, ?_⟩ <;>
        first
          | (simp_all; done)
          | (intro x hx; exact (h5 x hx).1)
          | (intro x hx; refine ⟨(h5 x hx).1, ?_⟩; simp_all)
          | (cases hg : c.gpc <;> simp_all)
    · rw [if_neg hcond]; exact ⟨h1, h2, h3, h4, h5, h6, h7, h8, h9, h10⟩
  case mRecv =>
    by_cases hcond : c.mpc = .sel ∧ c.resultCh = true
    · rw [if_pos hcond]
      refine ⟨?_, ?_, ?_, ?_, ?_, ?_, ?_, ?_, ?_, ?_⟩ <;>
        first
          | (simp_all; done)
          | (intro x hx; exact (h5 x hx).1)
          | (intro x hx; refine ⟨(h5 x hx).1, ?_⟩; simp_all)
          | (cases hg : c.gpc <;> simp_all)
    · rw [if_neg hcond]; exact ⟨h1, h2, h3, h4, h5, h6, h7, h8, h9, h10⟩
  case mTimeout =>
    by_cases hcond : c.mpc = .sel ∧ c.ctxDone = true
    · rw [if_pos hcond]
      refine ⟨?_, ?_, ?_, ?_, ?_, ?_, ?_, ?_, ?_, ?_⟩ <;>
        first
          | (simp_all; done)
          | (intro x hx; exact (h5 x hx).1)
          | (intro x hx; refine ⟨(h5 x hx).1, ?_⟩; simp_all)
          | (cases hg : c.gpc <;> simp_all)
    · rw [if_neg hcond]; exact ⟨h1, h2, h3, h4, h5, h6, h7, h8, h9, h10⟩
  case mAcq =>
    by_cases hcond : c.mpc = .t1 ∧ c.mutex = none
    · rw [if_pos hcond]
      refine ⟨?_, ?_, ?_, ?_, ?_, ?_, ?_, ?_, ?_, ?_⟩ <;>
        first
          | (simp_all; done)
          | (intro x hx; exact (h5 x hx).1)
          | (intro x hx; refine ⟨(h5 x hx).1, ?_⟩; simp_all)
          | (cases hg : c.gpc <;> simp_all)
    · rw [if_neg hcond]; exact ⟨h1, h2, h3, h4, h5, h6, h7, h8, h9, h10⟩
  case mCheck =>
    by_cases hcond : c.mpc = .t2
    · rw [if_pos hcond]
      rcases hf : c.file with - | x
      · simp only [hf]
        refine ⟨?_, ?_, ?_, ?_, ?_, ?_, ?_, ?_, ?_, ?_⟩ <;>
          first
            | (simp_all; done)
            | (intro x hx; exact (h5 x hx).1)
            | (intro x hx; refine ⟨(h5 x hx).1, ?_⟩; simp_all)
            | (cases hg : c.gpc <;> simp_all)
      · obtain ⟨hx, hgd⟩ := h5 x hf
        subst hx
        rcases hu : o.unlockRes x with - | e <;> simp only [hf, hu]
        · refine ⟨?_, ?_, ?_, ?_, ?_, ?_, ?_, ?_, ?_, ?_⟩ <;>
            first
              | (simp_all; done)
              | (intro x hx; exact (h5 x hx).1)
              | (intro x hx; refine ⟨(h5 x hx).1, ?_⟩; simp_all)
              | (cases hg : c.gpc <;> simp_all)
        · refine ⟨?_, ?_, ?_, ?_, ?_, ?_, ?_, ?_, ?_, ?_⟩ <;>
            first
              | (simp_all; done)
              | (intro x hx; exact (h5 x hx).1)
              | (intro x hx; refine ⟨(h5 x hx).1, ?_⟩; simp_all)
              | (cases hg : c.gpc <;> simp_all)
    · rw [if_neg hcond]; exact ⟨h1, h2, h3, h4, h5, h6, h7, h8, h9, h10⟩
  case mRet =>
    by_cases hcond : c.mpc = .t3
    · rw [if_pos hcond]
      refine ⟨?_, ?_, ?_, ?_, ?_, ?_, ?_, ?_, ?_, ?_⟩ <;>
        first
          | (simp_all; done)
          | (intro x hx; exact (h5 x hx).1)
          | (intro x hx; refine ⟨(h5 x hx).1, ?_⟩; simp_all)
          | (cases hg : c.gpc <;> simp_all)
    · rw [if_neg hcond]; exact ⟨h1, h2, h3, h4, h5, h6, h7, h8, h9, h10⟩
  case uUnlock =>
    by_cases hcond : c.doneClosed = false
    · rw [if_pos hcond]
      exact ⟨h1, h2, h3, h4, h5, h6, h7, h8, h9, h10⟩
    · rw [if_neg hcond]; exact ⟨h1, h2, h3, h4, h5, h6, h7, h8, h9, h10⟩
  case wRecvDone =>
    by_cases hcond : c.waiterStarted = true ∧ c.wpc = .w0 ∧ c.doneClosed = true
    · rw [if_pos hcond]
      refine ⟨?_, ?_, ?_, ?_, ?_, ?_, ?_, ?_, ?_, ?_⟩ <;>
        first
          | (simp_all; done)
          | (intro x hx; exact (h5 x hx).1)
          | (intro x hx; refine ⟨(h5 x hx).1, ?_⟩; simp_all)
          | (cases hg : c.gpc <;> simp_all)
    · rw [if_neg hcond]; exact ⟨h1, h2, h3, h4, h5, h6, h7, h8, h9, h10⟩
  case wAcq =>
    by_cases hcond : c.wpc = .w1 ∧ c.mutex = none
    · rw [if_pos hcond]
      refine ⟨?_, ?_, ?_, ?_, ?_, ?_, ?_, ?_, ?_, ?_⟩ <;>
        first
          | (simp_all; done)
          | (intro x hx; exact (h5 x hx).1)
          | (intro x hx; refine ⟨(h5 x hx).1, ?_⟩; simp_all)
          | (cases hg : c.gpc <;> simp_all)
    · rw [if_neg hcond]; exact ⟨h1, h2, h3, h4, h5, h6, h7, h8, h9, h10⟩
  case wCheck =>
    by_cases hcond : c.wpc = .w2
    · rw [if_pos hcond]
      have hws : c.waiterStarted = true := h2 (by simp [hcond])
      have hok : c.mpc = .doneOk := h1.mp hws
      rcases hf : c.file with - | x
      · simp only [hf]
        refine ⟨?_, ?_, ?_, ?_, ?_, ?_, ?_, ?_, ?_, ?_⟩ <;>
          first
            | (simp_all; done)
            | (intro x hx; exact (h5 x hx).1)
            | (intro x hx; refine ⟨(h5 x hx).1, ?_⟩; simp_all)
            | (cases hg : c.gpc <;> simp_all)
      · obtain ⟨hx, hgd⟩ := h5 x hf
        subst hx
        rcases hu : o.unlockRes x with - | e <;> simp only [hf, hu]
        · refine ⟨?_, ?_, ?_, ?_, ?_, ?_, ?_, ?_, ?_, ?_⟩ <;>
            first
              | (simp_all; done)
              | (intro x hx; exact (h5 x hx).1)
              | (intro x hx; refine ⟨(h5 x hx).1, ?_⟩; simp_all)
              | (cases hg : c.gpc <;> simp_all)
        · refine ⟨?_, ?_, ?_, ?_, ?_, ?_, ?_, ?_, ?_, ?_⟩ <;>
            first
              | (simp_all; done)
              | (intro x hx; exact (h5 x hx).1)
              | (intro x hx; refine ⟨(h5 x hx).1, ?_⟩; simp_all)
              | (cases hg : c.gpc <;> simp_all)
    · rw [if_neg hcond]; exact ⟨h1, h2, h3, h4, h5, h6, h7, h8, h9, h10⟩

/-- The invariant holds after running any schedule, for any oracle whose
`LockFile` call succeeds with handle `h`. -/
theorem invL_run (o : LockOracle) (h : Nat) (ho : o.acq = .ok h)
    (p : String) (sched : List LockAct) : InvL h (lockRun o p sched) := by
  suffices hstep : ∀ c, InvL h c → InvL h (sched.foldl (lockStep o) c) from
    hstep _ (invL_init h p)
  induction sched with
  | nil => exact fun c hc => hc
  | cons a as ih => exact fun c hc => ih _ (invL_step o h ho c hc a)

/-- No action changes the lock's path. -/
theorem lockStep_path (o : LockOracle) (c : LockConfig) (a : LockAct) :
    (lockStep o c a).path = c.path := by
  cases a <;> simp only [lockStep] <;> repeat' first | split | rfl

/-- The path after running any schedule is the path the run started with. -/
theorem lockRun_path (o : LockOracle) (p : String) (sched : List LockAct) :
    (lockRun o p sched).path = p := by
  suffices hstep : ∀ c, (sched.foldl (lockStep o) c).path = c.path from
    hstep (lockInit p)
  induction sched with
  | nil => exact fun c => rfl
  | cons a as ih => exact fun c => (ih _).trans (lockStep_path o c a)

/-! ## Concrete oracles, environments and schedules used by the claim theorems -/

/-- Oracle under which `LockFile` succeeds with handle 1 and `UnlockFile`
always succeeds. -/
def oracle1 : LockOracle := { acq := .ok 1, unlockRes := fun _ => none }

/-- Interleaving in which the timeout branch runs to completion (observing a
nil handle) before the acquisition goroutine is scheduled at all; the
goroutine then acquires the file lock and finishes. -/
def lateAcqSched : List LockAct :=
  [.timerFire, .mTimeout, .mAcq, .mCheck, .mRet,
   .gAcq, .gLockFile, .gSetFile, .gSendResult, .gRelease]

/-- Interleaving in which the deadline fires first but the goroutine's handle
lands before the timeout branch takes the mutex, so the handle check finds and
unlocks it. -/
def landedSched : List LockAct :=
  [.timerFire, .gAcq, .gLockFile, .gSetFile, .mTimeout,
   .gSendResult, .gRelease, .mAcq, .mCheck, .mRet]

/-- Environment whose underlying write and remove calls fail with distinctive
inner errors. -/
def envInnerFail : Env :=
  { writeRes := fun _ _ => some (.errorf "disk full"),
    removeRes := fun _ => some (.errorf "permission denied") }

/-- Environment in which the directory being deleted does not exist. -/
def envNotExist : Env := { statRes := fun _ => .notExist }

/-! ## C7: NewLock substitutes the default timeout for zero -/

/-- C7: `NewLock(path, 0)` sets `Timeout` to the (nonzero) default constant,
and `NewLock(path, t)` with `t ≠ 0` sets `Timeout` to `t`. -/
theorem c7_newlock_timeout (p : String) :
    (NewLock p 0).Timeout = FileLockDefaultTimeout
    ∧ FileLockDefaultTimeout ≠ 0
    ∧ ∀ t : Nat, t ≠ 0 → (NewLock p t).Timeout = t := by
  refine ⟨rfl, by unfold FileLockDefaultTimeout; omega, fun t ht => ?_⟩
  simp [NewLock, ht]

/-- C7 witness: the timeout substitution at the concrete path and timeouts 0
and 5. -/
theorem c7_newlock_timeout_witness :
    (NewLock "/var/lib/longhorn.lock" 0).Timeout = FileLockDefaultTimeout
    ∧ FileLockDefaultTimeout ≠ 0
    ∧ (NewLock "/var/lib/longhorn.lock" 5).Timeout = 5 :=
  ⟨(c7_newlock_timeout "/var/lib/longhorn.lock").1,
   (c7_newlock_timeout "/var/lib/longhorn.lock").2.1,
   (c7_newlock_timeout "/var/lib/longhorn.lock").2.2 5 (by decide)⟩

/-! ## C8: the default process name resolver never errors -/

/-- C8: `GetDefaultProcessName` is total (it returns a plain process name for
every detection outcome); on detection failure it returns the "none" process,
and on success it returns the kubelet supervisor name exactly for Talos Linux
and the "none" process for every other distro. -/
theorem c8_default_process_name :
    (∀ e : GoErr, GetDefaultProcessName (.error e) = ProcessNone)
    ∧ GetDefaultProcessName (.ok OSDistroTalosLinux) = ProcessKubelet
    ∧ ∀ d : String, d ≠ OSDistroTalosLinux → GetDefaultProcessName (.ok d) = ProcessNone := by
  refine ⟨fun e => rfl, by simp [GetDefaultProcessName], fun d hd => ?_⟩
  simp [GetDefaultProcessName, hd]

/-- C8 witness: the three outcomes at concrete inputs. -/
theorem c8_default_process_name_witness :
    GetDefaultProcessName (.error (.errorf "failed to get os distro")) = ProcessNone
    ∧ GetDefaultProcessName (.ok OSDistroTalosLinux) = ProcessKubelet
    ∧ GetDefaultProcessName (.ok "ubuntu") = ProcessNone :=
  ⟨c8_default_process_name.1 (.errorf "failed to get os distro"),
   c8_default_process_name.2.1,
   c8_default_process_name.2.2 "ubuntu" (by decide)⟩

/-! ## C9: a second Unlock panics -/

/-- C9: `Unlock` closes the `done` channel, so calling it twice on the same
`FileLock` panics with the Go runtime's "close of closed channel"; the
release-exactly-once contract is not enforced defensively. -/
theorem c9_unlock_twice_panics (p : String) (t : Nat) :
    ∃ l', (NewLock p t).Unlock = .ok l'
      ∧ l'.Unlock = .panicked "close of closed channel" :=
  ⟨_, rfl, rfl⟩

/-! ## C4: WriteFile and DeletePath lose their error wrapping (code bug) -/

/-- C4: with a failing underlying call, `WriteFile` and `DeletePath` return
the inner error unchanged — the messages carry no "failed to write file" /
"failed to delete path" context, because both functions have unnamed result
parameters and their deferred `errors.Wrapf` assigns a dead local. -/
theorem c4_unwrapped_errors :
    (WriteFile envInnerFail "none" "/var/lib/f" "data").1 = some (.errorf "disk full")
    ∧ render (.errorf "disk full") = "disk full"
    ∧ containsSub (render (.errorf "disk full")) "failed to write file" = false
    ∧ (DeletePath envInnerFail "none" "/var/lib/f").1 = some (.errorf "permission denied")
    ∧ containsSub (render (.errorf "permission denied")) "failed to delete path" = false :=
  ⟨rfl, rfl, by decide, rfl, by decide⟩

/-! ## C5: mismatched executor results become distinct cast-failure errors -/

/-- C5: for every typed wrapper, if the executor returns successfully but the
raw value's dynamic type is not the expected one, the wrapper returns its
zero/nil result together with the distinct cast-failure error (wrapped with
the operation context where the wrapper's result parameters are named;
`GetDiskStat`'s unnamed results leave its cast error bare). -/
theorem c5_cast_failures (v : GoValue) (path : String) :
    (v.typeName ≠ "string" →
      CreateDirectoryPost path v none
        = ("", some (.wrapped ("failed to create directory " ++ path)
            (.castFailed "string" v.typeName))))
    ∧ (v.typeName ≠ "[]fs.DirEntry" →
      ReadDirectoryPost path v none
        = ([], some (.wrapped ("failed to read directory " ++ path)
            (.castFailed "[]fs.DirEntry" v.typeName))))
    ∧ (v.typeName ≠ "[]string" →
      GetEmptyFilesPost path v none
        = ([], some (.wrapped ("failed to get empty files in " ++ path)
            (.castFailed "[]string" v.typeName))))
    ∧ (v.typeName ≠ "fs.FileInfo" →
      GetFileInfoPost path v none
        = (none, some (.wrapped ("failed to get file info of " ++ path)
            (.castFailed "fs.FileInfo" v.typeName))))
    ∧ (v.typeName ≠ "string" →
      ReadFileContentPost path v none
        = ("", some (.wrapped ("failed to read file content of " ++ path)
            (.castFailed "string" v.typeName))))
    ∧ (v.typeName ≠ "types.DiskStat" →
      GetDiskStatPost v none
        = (none, some (.castFailed "types.DiskStat" v.typeName)))
    ∧ (v.typeName ≠ "*os.File" →
      LockFilePost path v none
        = (none, some (.wrapped ("failed to lock file " ++ path)
            (.castFailed "*os.File" v.typeName)))) := by
  refine ⟨?_, ?_, ?_, ?_, ?_, ?_, ?_⟩ <;>
    (cases v <;>
      simp [CreateDirectoryPost, ReadDirectoryPost, GetEmptyFilesPost, GetFileInfoPost,
        ReadFileContentPost, GetDiskStatPost, LockFilePost, GoValue.typeName])

/-- C5 witness: a nil executor result fails all seven casts at a concrete
path. -/
theorem c5_cast_failures_witness :
    CreateDirectoryPost "/p" .vNil none
      = ("", some (.wrapped "failed to create directory /p" (.castFailed "string" "nil")))
    ∧ ReadDirectoryPost "/p" .vNil none
      = ([], some (.wrapped "failed to read directory /p" (.castFailed "[]fs.DirEntry" "nil")))
    ∧ GetEmptyFilesPost "/p" .vNil none
      = ([], some (.wrapped "failed to get empty files in /p" (.castFailed "[]string" "nil")))
    ∧ GetFileInfoPost "/p" .vNil none
      = (none, some (.wrapped "failed to get file info of /p" (.castFailed "fs.FileInfo" "nil")))
    ∧ ReadFileContentPost "/p" .vNil none
      = ("", some (.wrapped "failed to read file content of /p" (.castFailed "string" "nil")))
    ∧ GetDiskStatPost .vNil none = (none, some (.castFailed "types.DiskStat" "nil"))
    ∧ LockFilePost "/p" .vNil none
      = (none, some (.wrapped "failed to lock file /p" (.castFailed "*os.File" "nil"))) :=
  ⟨(c5_cast_failures .vNil "/p").1 (by decide),
   (c5_cast_failures .vNil "/p").2.1 (by decide),
   (c5_cast_failures .vNil "/p").2.2.1 (by decide),
   (c5_cast_failures .vNil "/p").2.2.2.1 (by decide),
   (c5_cast_failures .vNil "/p").2.2.2.2.1 (by decide),
   (c5_cast_failures .vNil "/p").2.2.2.2.2.1 (by decide),
   (c5_cast_failures .vNil "/p").2.2.2.2.2.2 (by decide)⟩

/-! ## C2: the shallow-path guard covers only CopyDirectory and DeleteDirectory -/

/-- C2 counterexample: "/tmp" resolves to one level below the root (one
separator), yet `DeletePath` executes the recursive removal and returns no
rejection error — it has no path guard at all. -/
theorem c2_claim_counterexample :
    countChar '/' (absClean ({} : Env).cwd "/tmp") < 2
    ∧ (DeletePath ({} : Env) "none" "/tmp").2 = [.removeAll "/tmp"]
    ∧ (DeletePath ({} : Env) "none" "/tmp").1 = none :=
  ⟨by decide, rfl, rfl⟩

/-- C2 amended: only `CopyDirectory` and `DeleteDirectory` reject shallow
paths (cleaned absolute form with fewer than two separators) before any
destructive call; `DeletePath` and `CopyFiles` perform no depth check and
execute the removal/copy even on such paths. -/
theorem c2_amended :
    (∀ (env : Env) (pn src dst : String) (ow : Bool),
      countChar '/' (absClean env.cwd src) < 2 ∨ countChar '/' (absClean env.cwd dst) < 2 →
      (CopyDirectory env pn src dst ow).2 = []
      ∧ (CopyDirectory env pn src dst ow).1
          = some (.wrapped ("failed to copy host content from " ++ src ++ " to " ++ dst)
              (.errorf ("prohibit copying the content for the top level of directory "
                ++ absClean env.cwd src ++ " or " ++ absClean env.cwd dst))))
    ∧ (∀ (env : Env) (pn dir : String),
      countChar '/' (absClean env.cwd dir) < 2 →
      (DeleteDirectory env pn dir).2 = []
      ∧ (DeleteDirectory env pn dir).1
          = some (.wrapped ("failed to remove host directory " ++ dir)
              (.errorf ("prohibit removing the top level of directory "
                ++ absClean env.cwd dir))))
    ∧ ((DeletePath ({} : Env) "none" "/tmp").1 = none
        ∧ (DeletePath ({} : Env) "none" "/tmp").2 = [.removeAll "/tmp"])
    ∧ ((CopyFiles ({} : Env) "none" "/tmp" "/" true).1 = none
        ∧ (CopyFiles ({} : Env) "none" "/tmp" "/" true).2 = [.copyFiles "/tmp" "/" true]) := by
  refine ⟨?_, ?_, ⟨rfl, rfl⟩, ⟨rfl, rfl⟩⟩
  · intro env pn src dst ow hlt
    simp [CopyDirectory, hlt, wrapf]
  · intro env pn dir hlt
    simp [DeleteDirectory, hlt, wrapf]

/-- C2 amended witness: the guard fires for `CopyDirectory` on source "/data"
and for `DeleteDirectory` on "/opt". -/
theorem c2_amended_witness :
    ((countChar '/' (absClean ({} : Env).cwd "/data") < 2
        ∨ countChar '/' (absClean ({} : Env).cwd "/var/lib") < 2)
      ∧ (CopyDirectory ({} : Env) "none" "/data" "/var/lib" true).2 = []
      ∧ (CopyDirectory ({} : Env) "none" "/data" "/var/lib" true).1
          = some (.wrapped "failed to copy host content from /data to /var/lib"
              (.errorf "prohibit copying the content for the top level of directory /data or /var/lib")))
    ∧ (countChar '/' (absClean ({} : Env).cwd "/opt") < 2
      ∧ (DeleteDirectory ({} : Env) "none" "/opt").2 = []
      ∧ (DeleteDirectory ({} : Env) "none" "/opt").1
          = some (.wrapped "failed to remove host directory /opt"
              (.errorf "prohibit removing the top level of directory /opt"))) := by
  have hcopy := c2_amended.1 ({} : Env) "none" "/data" "/var/lib" true (by decide)
  have hdel := c2_amended.2.1 ({} : Env) "none" "/opt" (by decide)
  exact ⟨⟨by decide, hcopy.1, hcopy.2⟩, ⟨by decide, hdel.1, hdel.2⟩⟩

/-! ## C6: DeleteDirectory depth-2 path proceeds, depth-1 path is rejected -/

/-- C6: `DeleteDirectory` on "/var/lib/test-dir" (three separators) passes the
guard and issues the removal of that directory (succeeding when the removal
call succeeds), while on "/var" (one separator) every environment gets the
"prohibit" error and no filesystem effect at all. -/
theorem c6_delete_directory (env : Env) (pn : String)
    (hns : env.nsFail = none)
    (hstat : env.statRes "/var/lib/test-dir" = .ok) :
    ((DeleteDirectory env pn "/var/lib/test-dir").2 = [.removeAll "/var/lib/test-dir"]
      ∧ (DeleteDirectory env pn "/var/lib/test-dir").1
          = wrapf (env.removeRes "/var/lib/test-dir")
              "failed to remove host directory /var/lib/test-dir")
    ∧ ∀ (env' : Env) (pn' : String),
        (DeleteDirectory env' pn' "/var").1
          = some (.wrapped "failed to remove host directory /var"
              (.errorf "prohibit removing the top level of directory /var"))
        ∧ (DeleteDirectory env' pn' "/var").2 = [] := by
  have habs : absClean env.cwd "/var/lib/test-dir" = "/var/lib/test-dir" := rfl
  have hguard : ¬ countChar '/' "/var/lib/test-dir" < 2 := by decide
  constructor
  · simp [DeleteDirectory, habs, hguard, hns, hstat, RunFunc]
  · intro env' pn'
    have habs' : absClean env'.cwd "/var" = "/var" := rfl
    have hguard' : countChar '/' "/var" < 2 := by decide
    simp [DeleteDirectory, habs', hguard', wrapf]

/-- C6 witness: in the default environment (directory exists, removal
succeeds), deleting "/var/lib/test-dir" issues the removal and returns nil,
and deleting "/var" is rejected with no effect. -/
theorem c6_delete_directory_witness :
    ((DeleteDirectory ({} : Env) "none" "/var/lib/test-dir").2
        = [.removeAll "/var/lib/test-dir"]
      ∧ (DeleteDirectory ({} : Env) "none" "/var/lib/test-dir").1 = none)
    ∧ ((DeleteDirectory ({} : Env) "none" "/var").1
        = some (.wrapped "failed to remove host directory /var"
            (.errorf "prohibit removing the top level of directory /var"))
      ∧ (DeleteDirectory ({} : Env) "none" "/var").2 = []) := by
  have h := c6_delete_directory ({} : Env) "none" rfl rfl
  exact ⟨⟨h.1.1, h.1.2⟩, h.2 ({} : Env) "none"⟩

/-! ## C10: DeleteDirectory on a missing directory succeeds with no removal -/

/-- C10: past the guard and with a working executor, `DeleteDirectory` returns
nil with no removal when the stat reports not-exists; it errors exactly on a
stat failure other than not-exists or on a failing removal of an existing
directory (and otherwise removes the directory). -/
theorem c10_delete_missing (env : Env) (pn dir : String)
    (hg : ¬ countChar '/' (absClean env.cwd dir) < 2)
    (hns : env.nsFail = none) :
    (env.statRes (absClean env.cwd dir) = .notExist →
      DeleteDirectory env pn dir = (none, []))
    ∧ (∀ e, env.statRes (absClean env.cwd dir) = .err e →
      DeleteDirectory env pn dir
        = (some (.wrapped ("failed to remove host directory " ++ dir) e), []))
    ∧ (env.statRes (absClean env.cwd dir) = .ok →
      DeleteDirectory env pn dir
        = (wrapf (env.removeRes (absClean env.cwd dir))
            ("failed to remove host directory " ++ dir),
          [.removeAll (absClean env.cwd dir)])) := by
  refine ⟨?_, ?_, ?_⟩
  · intro hstat
    simp [DeleteDirectory, hg, hns, hstat, RunFunc, wrapf]
  · intro e hstat
    simp [DeleteDirectory, hg, hns, hstat, RunFunc, wrapf]
  · intro hstat
    simp [DeleteDirectory, hg, hns, hstat, RunFunc, wrapf]

/-- C10 witness: deleting the missing "/var/lib/missing-dir" returns nil with
no removal effect. -/
theorem c10_delete_missing_witness :
    DeleteDirectory envNotExist "none" "/var/lib/missing-dir" = (none, []) := by
  have h := c10_delete_missing envNotExist "none" "/var/lib/missing-dir"
    (by decide) rfl
  exact h.1 rfl

/-! ## C1: a lock acquired after the timeout return is never released -/

/-- C1 counterexample: a complete run in which `Lock()` has returned the
timeout error with the handle observed nil, the acquisition goroutine then
obtained handle 1 and finished — and the handle was never passed to
`UnlockFile` and `lock.File` is still set: no self-unlock exists. -/
theorem c1_claim_counterexample :
    (lockRun oracle1 "/tmp/f" lateAcqSched).ret = some (some (timeoutErr "/tmp/f"))
    ∧ (lockRun oracle1 "/tmp/f" lateAcqSched).observedNil = true
    ∧ (lockRun oracle1 "/tmp/f" lateAcqSched).gpc = .gDone
    ∧ (lockRun oracle1 "/tmp/f" lateAcqSched).file = some 1
    ∧ (lockRun oracle1 "/tmp/f" lateAcqSched).unlocked = [] :=
  ⟨rfl, rfl, rfl, rfl, rfl⟩

/-- C1 amended: in every interleaving in which the timeout branch observed a
nil handle and the acquisition goroutine completed successfully, `lock.File`
is left holding the acquired handle and nothing has been unlocked — the
goroutine does not self-release the abandoned lock. -/
theorem c1_amended (o : LockOracle) (h : Nat) (p : String) (sched : List LockAct)
    (ho : o.acq = .ok h)
    (hobs : (lockRun o p sched).observedNil = true)
    (hg : (lockRun o p sched).gpc = .gDone) :
    (lockRun o p sched).file = some h ∧ (lockRun o p sched).unlocked = [] := by
  obtain ⟨-, -, -, -, -, -, h7, -, -, -⟩ := invL_run o h ho p sched
  obtain ⟨-, hunl, hdisj⟩ := h7 hobs
  refine ⟨?_, hunl⟩
  rcases hdisj with ⟨-, hgg⟩ | ⟨hf, -⟩
  · rw [hg] at hgg
    rcases hgg with h' | h' | h' <;> cases h'
  · exact hf

/-- C1 amended witness: the late-acquisition interleaving instantiates the
amended statement at handle 1. -/
theorem c1_amended_witness :
    oracle1.acq = .ok 1
    ∧ (lockRun oracle1 "/tmp/f" lateAcqSched).observedNil = true
    ∧ (lockRun oracle1 "/tmp/f" lateAcqSched).gpc = .gDone
    ∧ ((lockRun oracle1 "/tmp/f" lateAcqSched).file = some 1
        ∧ (lockRun oracle1 "/tmp/f" lateAcqSched).unlocked = []) :=
  ⟨rfl, rfl, rfl, c1_amended oracle1 1 "/tmp/f" lateAcqSched rfl rfl rfl⟩

/-! ## C3: the timeout path unlocks a landed handle; the error names only the path -/

/-- C3 counterexample: a run of `Lock` on a lock built by `NewLock` with
timeout 7 that takes the timeout return; the returned message is exactly
"timed out waiting for file to lock /data/lk" — the configured timeout
duration ("7") does not occur in it, so the error does not name the duration. -/
theorem c3_claim_counterexample :
    (NewLock "/data/lk" 7).Timeout = 7
    ∧ (lockRun oracle1 (NewLock "/data/lk" 7).FilePath landedSched).mpc = .doneTimeout
    ∧ (lockRun oracle1 (NewLock "/data/lk" 7).FilePath landedSched).ret
        = some (some (.errorf "timed out waiting for file to lock /data/lk"))
    ∧ containsSub "timed out waiting for file to lock /data/lk"
        (toString (NewLock "/data/lk" 7).Timeout) = false :=
  ⟨rfl, rfl, rfl, by decide⟩

/-- C3 amended: whenever `Lock` returns through the timeout branch, the
returned error is exactly the `fmt.Errorf` message ending in the file path
(the configured duration is not part of it), and if a handle had landed before
the check (the branch did not observe nil), the handle was synchronously
unlocked and the handle field cleared. -/
theorem c3_amended (o : LockOracle) (h : Nat) (p : String) (sched : List LockAct)
    (ho : o.acq = .ok h)
    (hend : (lockRun o p sched).mpc = .doneTimeout) :
    ((lockRun o p sched).ret
        = some (some (.errorf ("timed out waiting for file to lock " ++ p)))
      ∧ render (.errorf ("timed out waiting for file to lock " ++ p))
          = "timed out waiting for file to lock " ++ p)
    ∧ ((lockRun o p sched).observedNil = false →
        (lockRun o p sched).file = none ∧ (lockRun o p sched).unlocked = [h]) := by
  obtain ⟨-, -, -, -, -, -, -, h8, h9, -⟩ := invL_run o h ho p sched
  have hpath := lockRun_path o p sched
  refine ⟨⟨?_, rfl⟩, fun hobs => ?_⟩
  · have hret := h8 hend
    rw [hpath] at hret
    exact hret
  · obtain ⟨hu, hf, -⟩ := h9 (Or.inr hend) hobs
    exact ⟨hf, hu⟩

/-- C3 amended witness: the landed-handle interleaving at path "/tmp/g" and
handle 1: timeout return, handle unlocked and cleared. -/
theorem c3_amended_witness :
    oracle1.acq = .ok 1
    ∧ (lockRun oracle1 "/tmp/g" landedSched).mpc = .doneTimeout
    ∧ (lockRun oracle1 "/tmp/g" landedSched).observedNil = false
    ∧ ((lockRun oracle1 "/tmp/g" landedSched).ret
        = some (some (.errorf "timed out waiting for file to lock /tmp/g")))
    ∧ ((lockRun oracle1 "/tmp/g" landedSched).file = none
        ∧ (lockRun oracle1 "/tmp/g" landedSched).unlocked = [1]) :=
  ⟨rfl, rfl, rfl,
   (c3_amended oracle1 1 "/tmp/g" landedSched rfl rfl).1.1,
   (c3_amended oracle1 1 "/tmp/g" landedSched rfl rfl).2 rfl⟩

end LonghornPreflight
